import Mathlib

/-!
Verification development for the store_management repository.

Shallow embedding of the sales-planning core of the repository:

* the weekly gross-margin roll-up of `frontend/src/components/StoreChart.tsx`
  (`generateAllWeeks`, the `salesMap` accumulation and the `gmPercent` pass);
* the planning aggregation of `backend/controllers/planningController.js`
  (the SQL join and the `reduce` building `transformedData`);
* the CRUD controllers of `backend/controllers/storeController.js` and
  `backend/controllers/skusController.js` over an explicit datastore state.

TypeScript/JavaScript numbers are modelled as rationals (`ℚ`); string truthiness
(`!s`) is modelled as equality with `""`; number truthiness (`!x`, `x ? a : b`)
as (in)equality with `0`; a thrown `TypeError` is modelled as `Except.error`.
-/

namespace StoreManagement

/-! ## Weekly metrics roll-up (StoreChart.tsx) -/

/-- One entry of a SKU record weekly list: `{ week, salesUnits }`
(`iSalesData` in `frontend/src/lib/utils.ts`). -/
structure SalesEntry where
  week : String
  salesUnits : ℚ
deriving DecidableEq

/-- One SKU record of the aggregated planning data handed to `StoreChart`
(`iSKU` in `frontend/src/lib/utils.ts`). -/
structure SKUAgg where
  sku_id : String
  sku_name : String
  price : ℚ
  cost : ℚ
  salesData : List SalesEntry
deriving DecidableEq

/-- `String.prototype.padStart(2, "0")`: left-pad with zeros to length 2. -/
def padStart2 (s : String) : String :=
  if 2 ≤ s.length then s else String.mk (List.replicate (2 - s.length) '0') ++ s

/-- `generateAllWeeks` of `StoreChart.tsx`: the canonical week tokens
`["W01", "W02", …, "W52"]` (the loop pushes `"W" + i.toString().padStart(2, "0")`
for `i = 1 … 52`). -/
def generateAllWeeks : List String :=
  (List.range 52).map (fun i => "W" ++ padStart2 (toString (i + 1)))

/-- One value of the `salesMap` record of `StoreChart.tsx`:
`{ gmDollars, gmPercent, revenue, cost }`. -/
structure Bucket where
  gmDollars : ℚ
  gmPercent : ℚ
  revenue : ℚ
  cost : ℚ
deriving DecidableEq

/-- The all-zero bucket `{ gmDollars: 0, gmPercent: 0, revenue: 0, cost: 0 }`
every week is initialized with. -/
def zeroBucket : Bucket := ⟨0, 0, 0, 0⟩

/-- The `salesMap` object, as an association list in key-insertion order. -/
abbrev SalesMap := List (String × Bucket)

/-- The initialization loop: `allWeeks.forEach((week) => { salesMap[week] = {…0…} })`. -/
def initSalesMap : SalesMap :=
  generateAllWeeks.map (fun w => (w, zeroBucket))

/-- In-place update of the value stored under key `k` (JS property assignment on
an existing key). Keys and their order are untouched. -/
def updateAssoc (m : SalesMap) (k : String) (f : Bucket → Bucket) : SalesMap :=
  m.map (fun p => if p.1 = k then (p.1, f p.2) else p)

/-- The body of the accumulation loop of `StoreChart.tsx` for one sales record:
`revenue = salesUnits * price; totalCost = salesUnits * cost;
gmDollars = revenue - totalCost;` then the three `+=` updates on
`salesMap[week]`. -/
def applySale (price cost units : ℚ) (b : Bucket) : Bucket :=
  let revenue := units * price
  let totalCost := units * cost
  let gmDollars := revenue - totalCost
  { b with
    gmDollars := b.gmDollars + gmDollars
    revenue := b.revenue + revenue
    cost := b.cost + totalCost }

/-- One iteration of the inner `salesData.forEach`. When `week` is not a key of
`salesMap`, the JS expression `salesMap[week].gmDollars` reads a property of
`undefined` and throws a `TypeError`; this is the `Except.error` branch. -/
def accumSale (m : SalesMap) (price cost : ℚ) (e : SalesEntry) :
    Except String SalesMap :=
  match m.lookup e.week with
  | none => Except.error "TypeError: Cannot read properties of undefined"
  | some _ => Except.ok (updateAssoc m e.week (applySale price cost e.salesUnits))

/-- The inner loop over one SKU record `salesData`. -/
def accumSKU (m : SalesMap) (sku : SKUAgg) : Except String SalesMap :=
  sku.salesData.foldlM (fun m e => accumSale m sku.price sku.cost e) m

/-- The outer loop `skuArray.forEach((sku) => …)` starting from the zero-filled
map. The roll-up input is `Object.values(skuData.data)`, i.e. the list of SKU
records of the mapping in insertion order. -/
def accumAll (skus : List SKUAgg) : Except String SalesMap :=
  skus.foldlM accumSKU initSalesMap

/-- The per-week `gmPercent` assignment of `StoreChart.tsx`:
`salesMap[week].gmPercent = revenue ? (gmDollars / revenue) * 100 : 0`
(`revenue` is truthy exactly when it is nonzero). -/
def pctUpdate (b : Bucket) : Bucket :=
  { b with gmPercent := if b.revenue = 0 then 0 else b.gmDollars / b.revenue * 100 }

/-- The second `allWeeks.forEach` of `StoreChart.tsx`, computing `gmPercent`
for every canonical week after full accumulation. -/
def computePercents (m : SalesMap) : SalesMap :=
  generateAllWeeks.foldl (fun m w => updateAssoc m w pctUpdate) m

/-- Reading `salesMap[w]` once every canonical key is known to be present. -/
def getBucket (m : SalesMap) (w : String) : Bucket :=
  (m.lookup w).getD zeroBucket

/-- The output of the roll-up: the final `salesMap` together with the chart
series `labels = allWeeks`, `gmDollarsData` and `gmPercentData`. -/
structure RollupResult where
  salesMap : SalesMap
  labels : List String
  gmDollarsData : List ℚ
  gmPercentData : List ℚ
deriving DecidableEq

/-- Packaging of the final `salesMap` into the chart output: the series
extraction `allWeeks.map((week) => salesMap[week].gmDollars)` and
`allWeeks.map((week) => salesMap[week].gmPercent)` with `labels = allWeeks`. -/
def mkRollupResult (m : SalesMap) : RollupResult :=
  { salesMap := m
    labels := generateAllWeeks
    gmDollarsData := generateAllWeeks.map (fun w => (getBucket m w).gmDollars)
    gmPercentData := generateAllWeeks.map (fun w => (getBucket m w).gmPercent) }

/-- The whole weekly-metrics roll-up of `StoreChart.tsx` (the `useMemo` body up
to the extraction of the two data series): accumulate, compute percentages,
extract the series; a thrown `TypeError` propagates out. -/
def rollup (skus : List SKUAgg) : Except String RollupResult :=
  match accumAll skus with
  | Except.error s => Except.error s
  | Except.ok m0 => Except.ok (mkRollupResult (computePercents m0))

/-! ### Flattened view of the accumulation

The nested `forEach` loops of `StoreChart.tsx` visit, in order, every sales
record of every SKU together with that SKU price and cost.  `FlatSale` is one
such visit; the lemmas below characterize the loop as a fold over the
flattened list, and the per-week totals as sums over it (the per-week spec of
section 4.2 of the design). -/

structure FlatSale where
  price : ℚ
  cost : ℚ
  week : String
  units : ℚ
deriving DecidableEq

/-- The visits contributed by one SKU record. -/
def flatOf (sku : SKUAgg) : List FlatSale :=
  sku.salesData.map (fun e => ⟨sku.price, sku.cost, e.week, e.salesUnits⟩)

/-- All visits of the two nested loops, in visit order. -/
def flatten (skus : List SKUAgg) : List FlatSale :=
  skus.flatMap flatOf

/-- The accumulation loop as a fold over flattened visits. -/
def accumFlat (m : SalesMap) (fs : List FlatSale) : Except String SalesMap :=
  fs.foldlM (fun m f => accumSale m f.price f.cost ⟨f.week, f.units⟩) m

/-- Total gross-margin dollars contributed to week `w`. -/
def sumGM (fs : List FlatSale) (w : String) : ℚ :=
  ((fs.filter (fun f => f.week = w)).map (fun f => f.units * f.price - f.units * f.cost)).sum

/-- Total revenue contributed to week `w`. -/
def sumRev (fs : List FlatSale) (w : String) : ℚ :=
  ((fs.filter (fun f => f.week = w)).map (fun f => f.units * f.price)).sum

/-- Total cost contributed to week `w`. -/
def sumCost (fs : List FlatSale) (w : String) : ℚ :=
  ((fs.filter (fun f => f.week = w)).map (fun f => f.units * f.cost)).sum

/-- The week-`w` bucket that section 4.2 of the design describes: accumulated
totals, and `gmPercent` computed from them after full accumulation. -/
def specBucket (skus : List SKUAgg) (w : String) : Bucket :=
  let g := sumGM (flatten skus) w
  let r := sumRev (flatten skus) w
  let c := sumCost (flatten skus) w
  ⟨g, if r = 0 then 0 else g / r * 100, r, c⟩

/-! ### Association-list lemmas -/

theorem isOk_error {α : Type} (s : String) :
    (Except.error s : Except String α).isOk = false := rfl

theorem isOk_ok {α : Type} (a : α) :
    (Except.ok a : Except String α).isOk = true := rfl

theorem lookup_updateAssoc (m : SalesMap) (k : String) (f : Bucket → Bucket)
    (w : String) :
    (updateAssoc m k f).lookup w
      = (m.lookup w).map (fun b => if w = k then f b else b) := by
  induction m with
  | nil => rfl
  | cons p rest ih =>
    obtain ⟨a, b⟩ := p
    have hcons : updateAssoc ((a, b) :: rest) k f
        = (if a = k then (a, f b) else (a, b)) :: updateAssoc rest k f := by
      by_cases hak : a = k <;> simp [updateAssoc, hak]
    rw [hcons]
    by_cases hwa : w = a
    · subst hwa
      by_cases hwk : w = k <;> simp [List.lookup_cons, hwk]
    · have hbeq : (w == a) = false := by simpa using hwa
      by_cases hak : a = k
      · subst hak
        simp [List.lookup_cons, hbeq, ih]
      · simp [hak, List.lookup_cons, hbeq, ih]

theorem lookup_map_const (l : List String) (c : Bucket) (w : String) :
    ((l.map (fun x => (x, c))).lookup w) = if w ∈ l then some c else none := by
  induction l with
  | nil => rfl
  | cons a rest ih =>
    by_cases hwa : w = a
    · subst hwa; simp [List.lookup_cons]
    · have hbeq : (w == a) = false := by simpa using hwa
      simp [List.lookup_cons, hbeq, hwa, ih]

theorem lookup_initSalesMap (w : String) :
    initSalesMap.lookup w = if w ∈ generateAllWeeks then some zeroBucket else none :=
  lookup_map_const generateAllWeeks zeroBucket w

theorem isSome_lookup_updateAssoc (m : SalesMap) (k : String) (f : Bucket → Bucket)
    (w : String) :
    ((updateAssoc m k f).lookup w).isSome = ((m.lookup w).isSome) := by
  rw [lookup_updateAssoc]; cases m.lookup w <;> simp

/-! ### Characterizing the accumulation fold -/

theorem accumFlat_nil (m : SalesMap) : accumFlat m [] = Except.ok m := rfl

theorem accumFlat_cons (m : SalesMap) (f : FlatSale) (fs : List FlatSale) :
    accumFlat m (f :: fs)
      = match m.lookup f.week with
        | none => Except.error "TypeError: Cannot read properties of undefined"
        | some _ => accumFlat (updateAssoc m f.week (applySale f.price f.cost f.units)) fs := by
  show (accumSale m f.price f.cost ⟨f.week, f.units⟩ >>= fun m => accumFlat m fs) = _
  unfold accumSale
  cases m.lookup f.week <;> rfl

theorem accumFlat_isOk (fs : List FlatSale) (m : SalesMap) :
    (accumFlat m fs).isOk = true ↔ ∀ f ∈ fs, (m.lookup f.week).isSome = true := by
  induction fs generalizing m with
  | nil => simp [accumFlat_nil, isOk_ok]
  | cons f rest ih =>
    rw [accumFlat_cons]
    cases hl : m.lookup f.week with
    | none =>
      rw [isOk_error]
      constructor
      · intro h; cases h
      · intro h
        have := h f (List.mem_cons_self f rest)
        rw [hl] at this
        cases this
    | some b =>
      rw [ih]
      constructor
      · intro h g hg
        rcases List.mem_cons.mp hg with hg | hg
        · subst hg; simp [hl]
        · have hsome := h g hg
          rwa [isSome_lookup_updateAssoc] at hsome
      · intro h g hg
        rw [isSome_lookup_updateAssoc]
        exact h g (List.mem_cons_of_mem _ hg)

theorem sumGM_cons (f : FlatSale) (fs : List FlatSale) (w : String) :
    sumGM (f :: fs) w
      = (if f.week = w then f.units * f.price - f.units * f.cost else 0) + sumGM fs w := by
  by_cases h : f.week = w <;> simp [sumGM, List.filter_cons, h]

theorem sumRev_cons (f : FlatSale) (fs : List FlatSale) (w : String) :
    sumRev (f :: fs) w
      = (if f.week = w then f.units * f.price else 0) + sumRev fs w := by
  by_cases h : f.week = w <;> simp [sumRev, List.filter_cons, h]

theorem sumCost_cons (f : FlatSale) (fs : List FlatSale) (w : String) :
    sumCost (f :: fs) w
      = (if f.week = w then f.units * f.cost else 0) + sumCost fs w := by
  by_cases h : f.week = w <;> simp [sumCost, List.filter_cons, h]

theorem accumFlat_lookup (fs : List FlatSale) :
    ∀ (m mf : SalesMap), accumFlat m fs = Except.ok mf → ∀ (w : String),
    mf.lookup w = (m.lookup w).map (fun b =>
      ⟨b.gmDollars + sumGM fs w, b.gmPercent,
       b.revenue + sumRev fs w, b.cost + sumCost fs w⟩) := by
  induction fs with
  | nil =>
    intro m mf h w
    rw [accumFlat_nil] at h
    have hm : m = mf := by injection h
    subst hm
    cases m.lookup w <;> simp [sumGM, sumRev, sumCost]
  | cons f rest ih =>
    intro m mf h w
    rw [accumFlat_cons] at h
    cases hl : m.lookup f.week with
    | none => rw [hl] at h; cases h
    | some b0 =>
      rw [hl] at h
      rw [ih _ _ h w, lookup_updateAssoc]
      rw [sumGM_cons, sumRev_cons, sumCost_cons]
      cases m.lookup w with
      | none => rfl
      | some b =>
        by_cases hw : w = f.week
        · subst hw
          simp only [Option.map_some', if_pos rfl, Option.some.injEq,
            applySale, Bucket.mk.injEq, eq_self_iff_true, if_true, ite_true]
          refine ⟨by ring, trivial, by ring, by ring⟩
        · have hne : ¬ f.week = w := fun hh => hw hh.symm
          simp [hw, hne]

/-! ### The nested loops as one fold over the flattened visits -/

theorem accumSKU_eq_accumFlat (sku : SKUAgg) :
    ∀ m : SalesMap, accumSKU m sku = accumFlat m (flatOf sku) := by
  show ∀ m, sku.salesData.foldlM (fun m e => accumSale m sku.price sku.cost e) m
      = accumFlat m (sku.salesData.map (fun e => ⟨sku.price, sku.cost, e.week, e.salesUnits⟩))
  induction sku.salesData with
  | nil => intro m; rfl
  | cons e rest ih =>
    intro m
    show (accumSale m sku.price sku.cost e >>= fun m =>
        rest.foldlM (fun m e => accumSale m sku.price sku.cost e) m) = _
    have hstep : accumSale m sku.price sku.cost ⟨e.week, e.salesUnits⟩
        = accumSale m sku.price sku.cost e := rfl
    cases hacc : accumSale m sku.price sku.cost e with
    | error s =>
      show Except.error s = accumFlat m _
      simp only [List.map_cons]
      show Except.error s
          = (accumSale m sku.price sku.cost e >>= fun m1 =>
              accumFlat m1 (rest.map (fun e => ⟨sku.price, sku.cost, e.week, e.salesUnits⟩)))
      rw [hacc]
      rfl
    | ok m1 =>
      show rest.foldlM (fun m e => accumSale m sku.price sku.cost e) m1 = accumFlat m _
      rw [ih m1]
      simp only [List.map_cons]
      show accumFlat m1 _
          = (accumSale m sku.price sku.cost e >>= fun m1 =>
              accumFlat m1 (rest.map (fun e => ⟨sku.price, sku.cost, e.week, e.salesUnits⟩)))
      rw [hacc]
      rfl

theorem accumFlat_append (l1 l2 : List FlatSale) (m : SalesMap) :
    accumFlat m (l1 ++ l2)
      = (accumFlat m l1) >>= fun m1 => accumFlat m1 l2 := by
  unfold accumFlat
  rw [List.foldlM_append]

theorem accumAll_eq_accumFlat (skus : List SKUAgg) :
    accumAll skus = accumFlat initSalesMap (flatten skus) := by
  show skus.foldlM accumSKU initSalesMap = _
  have haux : ∀ (l : List SKUAgg) (m : SalesMap),
      l.foldlM accumSKU m = accumFlat m (flatten l) := by
    intro l
    induction l with
    | nil => intro m; rfl
    | cons sku rest ih =>
      intro m
      show (accumSKU m sku >>= fun m1 => rest.foldlM accumSKU m1) = _
      have hfl : flatten (sku :: rest) = flatOf sku ++ flatten rest := by
        simp [flatten]
      rw [hfl, accumFlat_append, accumSKU_eq_accumFlat]
      cases accumFlat m (flatOf sku) with
      | error s => rfl
      | ok m1 => exact ih m1
  exact haux skus initSalesMap

/-! ### The `gmPercent` pass -/

theorem pctUpdate_idem (b : Bucket) : pctUpdate (pctUpdate b) = pctUpdate b := by
  simp [pctUpdate]

theorem lookup_pctFold (ws : List String) :
    ∀ (m : SalesMap) (w : String),
    ((ws.foldl (fun m w => updateAssoc m w pctUpdate) m).lookup w)
      = (m.lookup w).map (fun b => if w ∈ ws then pctUpdate b else b) := by
  induction ws with
  | nil =>
    intro m w
    show m.lookup w = (m.lookup w).map (fun b => if w ∈ ([] : List String) then pctUpdate b else b)
    cases m.lookup w <;> simp
  | cons w0 rest ih =>
    intro m w
    show ((rest.foldl (fun m w => updateAssoc m w pctUpdate) (updateAssoc m w0 pctUpdate)).lookup w) = _
    rw [ih, lookup_updateAssoc]
    cases m.lookup w with
    | none => rfl
    | some b =>
      by_cases hw0 : w = w0
      · subst hw0
        by_cases hr : w ∈ rest <;>
          simp [hr, List.mem_cons, pctUpdate_idem]
      · by_cases hr : w ∈ rest <;>
          simp [hr, hw0, List.mem_cons]

theorem lookup_computePercents (m : SalesMap) (w : String) :
    (computePercents m).lookup w
      = (m.lookup w).map (fun b => if w ∈ generateAllWeeks then pctUpdate b else b) :=
  lookup_pctFold generateAllWeeks m w

/-! ### Characterization of the whole roll-up -/

theorem rollup_eq_error (skus : List SKUAgg) (s : String)
    (h : accumAll skus = Except.error s) : rollup skus = Except.error s := by
  unfold rollup
  rw [h]

theorem rollup_eq_ok (skus : List SKUAgg) (m0 : SalesMap)
    (h : accumAll skus = Except.ok m0) :
    rollup skus = Except.ok (mkRollupResult (computePercents m0)) := by
  unfold rollup
  rw [h]

theorem rollup_ok_elim (skus : List SKUAgg) (r : RollupResult)
    (h : rollup skus = Except.ok r) :
    ∃ m0, accumAll skus = Except.ok m0 ∧ r = mkRollupResult (computePercents m0) := by
  cases hacc : accumAll skus with
  | error s => rw [rollup_eq_error skus s hacc] at h; cases h
  | ok m0 =>
    rw [rollup_eq_ok skus m0 hacc] at h
    exact ⟨m0, rfl, (Except.ok.inj h).symm⟩

theorem rollup_isOk_iff (skus : List SKUAgg) :
    (rollup skus).isOk = true
      ↔ ∀ sku ∈ skus, ∀ e ∈ sku.salesData, e.week ∈ generateAllWeeks := by
  have h1 : (rollup skus).isOk = (accumAll skus).isOk := by
    unfold rollup
    cases accumAll skus <;> rfl
  rw [h1, accumAll_eq_accumFlat, accumFlat_isOk]
  constructor
  · intro h sku hsku e he
    have hf : (⟨sku.price, sku.cost, e.week, e.salesUnits⟩ : FlatSale) ∈ flatten skus := by
      refine List.mem_flatMap.mpr ⟨sku, hsku, ?_⟩
      exact List.mem_map.mpr ⟨e, he, rfl⟩
    have := h _ hf
    rw [lookup_initSalesMap] at this
    by_cases hw : e.week ∈ generateAllWeeks
    · exact hw
    · rw [if_neg hw] at this; cases this
  · intro h f hf
    rcases List.mem_flatMap.mp hf with ⟨sku, hsku, hmem⟩
    rcases List.mem_map.mp hmem with ⟨e, he, rfl⟩
    rw [lookup_initSalesMap]
    have hw : e.week ∈ generateAllWeeks := h sku hsku e he
    rw [if_pos hw]
    rfl

theorem salesMap_mkRollupResult (m : SalesMap) :
    (mkRollupResult m).salesMap = m := rfl

theorem labels_mkRollupResult (m : SalesMap) :
    (mkRollupResult m).labels = generateAllWeeks := rfl

theorem getBucket_rollup (skus : List SKUAgg) (r : RollupResult)
    (h : rollup skus = Except.ok r) (w : String) (hw : w ∈ generateAllWeeks) :
    getBucket r.salesMap w = specBucket skus w := by
  rcases rollup_ok_elim skus r h with ⟨m0, hm0, hr⟩
  have hok : accumFlat initSalesMap (flatten skus) = Except.ok m0 := by
    rw [← accumAll_eq_accumFlat]; exact hm0
  have hl0 : m0.lookup w = some
      ⟨sumGM (flatten skus) w, 0, sumRev (flatten skus) w, sumCost (flatten skus) w⟩ := by
    rw [accumFlat_lookup (flatten skus) initSalesMap m0 hok w, lookup_initSalesMap, if_pos hw]
    simp [zeroBucket]
  subst hr
  unfold getBucket
  rw [salesMap_mkRollupResult, lookup_computePercents, hl0]
  simp only [Option.map_some', if_pos hw, Option.getD_some]
  simp [pctUpdate, specBucket]

theorem rollup_labels (skus : List SKUAgg) (r : RollupResult)
    (h : rollup skus = Except.ok r) : r.labels = generateAllWeeks := by
  rcases rollup_ok_elim skus r h with ⟨m0, _, hr⟩
  rw [hr, labels_mkRollupResult]

/-! ### Further helper lemmas for the roll-up claims -/

theorem isOk_exists {α : Type} (x : Except String α) (h : x.isOk = true) :
    ∃ a, x = Except.ok a := by
  cases x with
  | error s => cases h
  | ok a => exact ⟨a, rfl⟩

theorem filter_flatten_nil (skus : List SKUAgg) (w : String)
    (h : ∀ sku ∈ skus, ∀ e ∈ sku.salesData, e.week ≠ w) :
    (flatten skus).filter (fun f => f.week = w) = [] := by
  rw [List.filter_eq_nil_iff]
  intro f hf
  rcases List.mem_flatMap.mp hf with ⟨sku, hsku, hmem⟩
  rcases List.mem_map.mp hmem with ⟨e, he, rfl⟩
  simpa using h sku hsku e he

theorem specBucket_zero (skus : List SKUAgg) (w : String)
    (h : (flatten skus).filter (fun f => f.week = w) = []) :
    specBucket skus w = zeroBucket := by
  unfold specBucket sumGM sumRev sumCost
  rw [h]
  simp [zeroBucket]

theorem specBucket_gmDollars (skus : List SKUAgg) (w : String) :
    (specBucket skus w).gmDollars = sumGM (flatten skus) w := rfl

theorem specBucket_revenue (skus : List SKUAgg) (w : String) :
    (specBucket skus w).revenue = sumRev (flatten skus) w := rfl

theorem sumGM_append (l1 l2 : List FlatSale) (w : String) :
    sumGM (l1 ++ l2) w = sumGM l1 w + sumGM l2 w := by
  simp [sumGM, List.filter_append]

theorem flatten_pair (s1 s2 : SKUAgg) : flatten [s1, s2] = flatOf s1 ++ flatOf s2 := by
  simp [flatten]

theorem flatten_single (s : SKUAgg) : flatten [s] = flatOf s := by
  simp [flatten]

/-- Strict lexicographic order on strings (by their character lists), used to
state that the week labels are ascending. -/
def strLt (a b : String) : Prop := a.data < b.data

instance : DecidableRel strLt :=
  fun a b => inferInstanceAs (Decidable (a.data < b.data))

/-- The spec example SKU: `SK1` with `price = 5`, `cost = 3` and Planning fact
`{week: "W01", salesUnits: 10}`. -/
def skuSK1 : SKUAgg := ⟨"SK1", "SKU One", 5, 3, [⟨"W01", 10⟩]⟩

/-! ## Claim theorems for the weekly-metrics roll-up -/

/-- C2 (counterexample): the claim quantifies over every input mapping, but on
a mapping holding one sales record with the non-canonical week token `"W53"`
the roll-up does not output any series: the accumulation loop throws a
`TypeError`, so no 52-week zero-filled output is produced. -/
theorem C2_noncanonical_counterexample :
    rollup [⟨"SK2", "Bad week", 5, 3, [⟨"W53", 10⟩]⟩]
      = Except.error "TypeError: Cannot read properties of undefined" := rfl

/-- C2 (amended): whenever the roll-up returns normally — in particular on
every mapping whose records all use canonical week tokens, including the empty
mapping of a store with zero Planning records — the output covers exactly the
52 canonical week tokens `"W01" … "W52"` in ascending order, and every week
mentioned by no sales record has `revenue = gmDollars = gmPercent = 0`
(the whole bucket is zero). -/
theorem C2_zero_fill_amended (skus : List SKUAgg) (r : RollupResult)
    (h : rollup skus = Except.ok r) :
    r.labels = generateAllWeeks ∧
    List.Pairwise strLt r.labels ∧
    ∀ w ∈ generateAllWeeks,
      (∀ sku ∈ skus, ∀ e ∈ sku.salesData, e.week ≠ w) →
      getBucket r.salesMap w = zeroBucket := by
  refine ⟨rollup_labels skus r h, ?_, ?_⟩
  · rw [rollup_labels skus r h]
    decide
  · intro w hw hnone
    rw [getBucket_rollup skus r h w hw]
    exact specBucket_zero skus w (filter_flatten_nil skus w hnone)

/-- Witness for C2: the empty mapping rolls up successfully and satisfies the
amended claim; every canonical week of its output carries the zero bucket. -/
theorem C2_zero_fill_witness :
    rollup [] = Except.ok (mkRollupResult (computePercents initSalesMap)) ∧
    ((mkRollupResult (computePercents initSalesMap)).labels = generateAllWeeks ∧
     List.Pairwise strLt (mkRollupResult (computePercents initSalesMap)).labels ∧
     ∀ w ∈ generateAllWeeks,
       (∀ sku ∈ ([] : List SKUAgg), ∀ e ∈ sku.salesData, e.week ≠ w) →
       getBucket (mkRollupResult (computePercents initSalesMap)).salesMap w = zeroBucket) := by
  have hok : rollup [] = Except.ok (mkRollupResult (computePercents initSalesMap)) :=
    rollup_eq_ok [] initSalesMap rfl
  exact ⟨hok, C2_zero_fill_amended [] _ hok⟩

/-- C3 (counterexample): a sales record whose week token `"XX"` is outside the
canonical 52-token set is not silently dropped; the roll-up does not return
normally but throws a `TypeError`. -/
theorem C3_noncanonical_counterexample :
    rollup [⟨"SK9", "Strange token", 2, 1, [⟨"XX", 3⟩]⟩]
      = Except.error "TypeError: Cannot read properties of undefined" := rfl

/-- C3 (amended): a sales record whose week token is not canonical makes the
roll-up throw instead of dropping the record: the roll-up returns normally
exactly when every sales record of every SKU bears a canonical week token
(and then the output is computed from all the records, which are exactly the
canonically-tokened ones). -/
theorem C3_throw_iff_noncanonical (skus : List SKUAgg) :
    (rollup skus).isOk = true
      ↔ ∀ sku ∈ skus, ∀ e ∈ sku.salesData, e.week ∈ generateAllWeeks :=
  rollup_isOk_iff skus

/-- Witness for C3: a mapping whose only record uses the canonical token
`"W07"` rolls up successfully. -/
theorem C3_throw_iff_witness :
    (rollup [⟨"SK3", "Canonical token", 2, 1, [⟨"W07", 4⟩]⟩]).isOk = true :=
  (C3_throw_iff_noncanonical [⟨"SK3", "Canonical token", 2, 1, [⟨"W07", 4⟩]⟩]).mpr
    (by decide)

/-- C4: for every input mapping and canonical week of the roll-up output, if
the accumulated revenue of that week is zero then the output `gmPercent` of
that week is exactly zero (the code guards the division with a truthiness
check on `revenue`). -/
theorem C4_gmPercent_zero_on_zero_revenue (skus : List SKUAgg) (r : RollupResult)
    (w : String) (h : rollup skus = Except.ok r) (hw : w ∈ generateAllWeeks)
    (hrev : (getBucket r.salesMap w).revenue = 0) :
    (getBucket r.salesMap w).gmPercent = 0 := by
  rw [getBucket_rollup skus r h w hw] at hrev ⊢
  have hr0 : sumRev (flatten skus) w = 0 := by
    rw [← specBucket_revenue skus w]
    exact hrev
  simp [specBucket, hr0]

/-- Witness for C4: the empty mapping has zero accumulated revenue in week
`"W01"`, and its output `gmPercent` there is zero. -/
theorem C4_gmPercent_zero_witness :
    rollup [] = Except.ok (mkRollupResult (computePercents initSalesMap)) ∧
    (getBucket (mkRollupResult (computePercents initSalesMap)).salesMap "W01").revenue = 0 ∧
    (getBucket (mkRollupResult (computePercents initSalesMap)).salesMap "W01").gmPercent = 0 := by
  have hok : rollup [] = Except.ok (mkRollupResult (computePercents initSalesMap)) :=
    rollup_eq_ok [] initSalesMap rfl
  have hzero : getBucket (mkRollupResult (computePercents initSalesMap)).salesMap "W01"
      = zeroBucket := by
    rw [getBucket_rollup [] _ hok "W01" (by decide)]
    exact specBucket_zero [] "W01" rfl
  refine ⟨hok, ?_, ?_⟩
  · rw [hzero]; rfl
  · exact C4_gmPercent_zero_on_zero_revenue [] _ "W01" hok (by decide) (by rw [hzero]; rfl)

/-- C5: on the mapping holding exactly the spec example SKU `SK1`
(`price = 5`, `cost = 3`, sales `10` units in week `"W01"`), the roll-up gives
week `W01` the bucket `revenue = 50`, `cost = 30`, `gmDollars = 20`,
`gmPercent = 40`, and every other canonical week the zero bucket. -/
theorem C5_spec_example (r : RollupResult) (h : rollup [skuSK1] = Except.ok r) :
    getBucket r.salesMap "W01" = ⟨20, 40, 50, 30⟩ ∧
    ∀ w ∈ generateAllWeeks, w ≠ "W01" → getBucket r.salesMap w = zeroBucket := by
  constructor
  · rw [getBucket_rollup [skuSK1] r h "W01" (by decide)]
    show specBucket [skuSK1] "W01" = _
    rw [specBucket]
    rw [flatten_single]
    show (⟨sumGM (flatOf skuSK1) "W01", _, sumRev (flatOf skuSK1) "W01",
      sumCost (flatOf skuSK1) "W01"⟩ : Bucket) = _
    have hg : sumGM (flatOf skuSK1) "W01" = 20 := by
      simp [sumGM, flatOf, skuSK1]
      norm_num
    have hr : sumRev (flatOf skuSK1) "W01" = 50 := by
      simp [sumRev, flatOf, skuSK1]
      norm_num
    have hc : sumCost (flatOf skuSK1) "W01" = 30 := by
      simp [sumCost, flatOf, skuSK1]
      norm_num
    rw [hg, hr, hc]
    norm_num
  · intro w hw hne
    rw [getBucket_rollup [skuSK1] r h w hw]
    refine specBucket_zero [skuSK1] w (filter_flatten_nil [skuSK1] w ?_)
    intro sku hsku e he
    rcases List.mem_singleton.mp hsku with rfl
    rcases List.mem_singleton.mp he with rfl
    show "W01" ≠ w
    exact fun hh => hne hh.symm

/-- Witness for C5: the roll-up of the spec example succeeds, and its `W01`
bucket is `⟨gmDollars 20, gmPercent 40, revenue 50, cost 30⟩`. -/
theorem C5_spec_example_witness :
    rollup [skuSK1] = Except.ok (mkRollupResult (computePercents
      (updateAssoc initSalesMap "W01" (applySale 5 3 10)))) ∧
    getBucket (mkRollupResult (computePercents
      (updateAssoc initSalesMap "W01" (applySale 5 3 10)))).salesMap "W01"
      = ⟨20, 40, 50, 30⟩ := by
  have hok : rollup [skuSK1] = Except.ok (mkRollupResult (computePercents
      (updateAssoc initSalesMap "W01" (applySale 5 3 10)))) :=
    rollup_eq_ok [skuSK1] (updateAssoc initSalesMap "W01" (applySale 5 3 10)) rfl
  exact ⟨hok, (C5_spec_example _ hok).1⟩

/-- C6: aggregation is additive across SKUs — for two SKUs with disjoint week
sets, whenever their combined mapping rolls up, each SKU rolls up alone as
well and, for every canonical week, the combined `gmDollars` is the sum of
the two individual `gmDollars` values. -/
theorem C6_additive_disjoint (s1 s2 : SKUAgg) (r12 : RollupResult)
    (h12 : rollup [s1, s2] = Except.ok r12)
    (hdisj : ∀ e1 ∈ s1.salesData, ∀ e2 ∈ s2.salesData, e1.week ≠ e2.week) :
    ∃ r1 r2, rollup [s1] = Except.ok r1 ∧ rollup [s2] = Except.ok r2 ∧
      ∀ w ∈ generateAllWeeks,
        (getBucket r12.salesMap w).gmDollars
          = (getBucket r1.salesMap w).gmDollars + (getBucket r2.salesMap w).gmDollars := by
  have hcanon : ∀ sku ∈ [s1, s2], ∀ e ∈ sku.salesData, e.week ∈ generateAllWeeks := by
    rw [← rollup_isOk_iff]
    rw [h12]
    rfl
  have h1ok : (rollup [s1]).isOk = true := by
    rw [rollup_isOk_iff]
    intro sku hsku e he
    rcases List.mem_singleton.mp hsku with rfl
    exact hcanon sku (by simp) e he
  have h2ok : (rollup [s2]).isOk = true := by
    rw [rollup_isOk_iff]
    intro sku hsku e he
    rcases List.mem_singleton.mp hsku with rfl
    exact hcanon sku (by simp) e he
  rcases isOk_exists _ h1ok with ⟨r1, hr1⟩
  rcases isOk_exists _ h2ok with ⟨r2, hr2⟩
  refine ⟨r1, r2, hr1, hr2, ?_⟩
  intro w hw
  rw [getBucket_rollup [s1, s2] r12 h12 w hw,
    getBucket_rollup [s1] r1 hr1 w hw,
    getBucket_rollup [s2] r2 hr2 w hw,
    specBucket_gmDollars, specBucket_gmDollars, specBucket_gmDollars,
    flatten_pair, flatten_single, flatten_single, sumGM_append]

/-- Witness for C6: two concrete SKUs with disjoint weeks `"W01"` and `"W02"`
satisfy the additivity conclusion. -/
theorem C6_additive_disjoint_witness :
    (rollup [⟨"SK1", "A", 5, 3, [⟨"W01", 10⟩]⟩, ⟨"SK2", "B", 4, 1, [⟨"W02", 2⟩]⟩]
      = Except.ok (mkRollupResult (computePercents
        (updateAssoc (updateAssoc initSalesMap "W01" (applySale 5 3 10))
          "W02" (applySale 4 1 2))))) ∧
    (∃ r1 r2, rollup [⟨"SK1", "A", 5, 3, [⟨"W01", 10⟩]⟩] = Except.ok r1 ∧
      rollup [⟨"SK2", "B", 4, 1, [⟨"W02", 2⟩]⟩] = Except.ok r2 ∧
      ∀ w ∈ generateAllWeeks,
        (getBucket (mkRollupResult (computePercents
          (updateAssoc (updateAssoc initSalesMap "W01" (applySale 5 3 10))
            "W02" (applySale 4 1 2)))).salesMap w).gmDollars
          = (getBucket r1.salesMap w).gmDollars + (getBucket r2.salesMap w).gmDollars) := by
  have hok : rollup [⟨"SK1", "A", 5, 3, [⟨"W01", 10⟩]⟩, ⟨"SK2", "B", 4, 1, [⟨"W02", 2⟩]⟩]
      = Except.ok (mkRollupResult (computePercents
        (updateAssoc (updateAssoc initSalesMap "W01" (applySale 5 3 10))
          "W02" (applySale 4 1 2)))) :=
    rollup_eq_ok _ _ rfl
  exact ⟨hok, C6_additive_disjoint _ _ _ hok (by decide)⟩

/-! ## Backend data model (prisma tables) and CRUD controllers -/

/-- A row of the `Store` table: `id`, `label`, `city`, `state`. -/
structure Store where
  id : String
  label : String
  city : String
  state : String
deriving DecidableEq

/-- A row of the `SKUs` table: `id`, `label`, `class`, `department`, `price`,
`cost` (the `class` column is destructured as `skuClass` in the controller,
which is also the name used here since `class` is reserved). -/
structure SKUrec where
  id : String
  label : String
  skuClass : String
  department : String
  price : ℚ
  cost : ℚ
deriving DecidableEq

/-- A row of the `Planning` table: `store`, `sku`, `week`, `salesUnits`. -/
structure Planning where
  store : String
  sku : String
  week : String
  salesUnits : ℚ
deriving DecidableEq

/-- A row of the `Calendar` reference table (its `week` and `month` columns,
the ones the planning query projects). -/
structure CalRow where
  week : String
  month : String
deriving DecidableEq

/-- The relational datastore state the controllers operate on. -/
structure DB where
  stores : List Store
  skus : List SKUrec
  plannings : List Planning
  calendar : List CalRow
deriving DecidableEq

/-- An HTTP response as the controllers produce it: status code plus the
`error` field of the JSON payload (`none` on success). -/
structure Response where
  status : Nat
  error : Option String
deriving DecidableEq

/-- `res.status(400).json({ error: msg })`. -/
def badRequest (msg : String) : Response := ⟨400, some msg⟩

/-- `res.status(201).json(...)`. -/
def created : Response := ⟨201, none⟩

/-- `res.json(...)` (status 200). -/
def okResponse : Response := ⟨200, none⟩

/-- `res.status(500).json({ error: "Internal Server Error" })`. -/
def serverError : Response := ⟨500, some "Internal Server Error"⟩

/-- JS `String.prototype.startsWith`: prefix test on the character lists. -/
def strStartsWith (s p : String) : Bool := p.data.isPrefixOf s.data

/-- `getAllStores`: `prisma.store.findMany()` returns every Store row. -/
def listStores (db : DB) : List Store := db.stores

/-- `getAllSKUs`: `prisma.sKUs.findMany()` returns every SKUs row. -/
def listSKUs (db : DB) : List SKUrec := db.skus

/-- `createStore` of `storeController.js`: reject when a required field is
falsy (empty string), then when the id lacks the `"ST"` prefix, then when a
store with that id already exists (`findUnique`); otherwise insert the row.
Every rejection happens before the insert, so the state is returned
unchanged on every error path. -/
def createStore (db : DB) (id label city state : String) : Response × DB :=
  if id = "" ∨ label = "" ∨ city = "" ∨ state = "" then
    (badRequest "id, label, city, and state are required fields", db)
  else if strStartsWith id "ST" = false then
    (badRequest "Store ID must start with \x27ST\x27 prefix", db)
  else if (db.stores.find? (fun s => s.id == id)).isSome then
    (badRequest "Store ID already exists", db)
  else
    (created, { db with stores := db.stores ++ [⟨id, label, city, state⟩] })

/-- `createSKU` of `skusController.js`: the required-field check uses JS
truthiness, so `price` 0 or `cost` 0 fails it exactly like an absent field;
then the `"SK"` prefix check, the duplicate check, and the insert. -/
def createSKU (db : DB) (id label skuClass department : String)
    (price cost : ℚ) : Response × DB :=
  if id = "" ∨ label = "" ∨ skuClass = "" ∨ department = "" ∨ price = 0 ∨ cost = 0 then
    (badRequest "id, label, class, department, price and cost are required fields", db)
  else if strStartsWith id "SK" = false then
    (badRequest "SKU ID must start with \x27SK\x27 prefix", db)
  else if (db.skus.find? (fun s => s.id == id)).isSome then
    (badRequest "SKU ID already exists", db)
  else
    (created, { db with skus := db.skus ++ [⟨id, label, skuClass, department, price, cost⟩] })

/-- `deleteStore` of `storeController.js`: `prisma.store.delete({ where: { id } })`.
When no such store exists prisma throws (P2025) and the catch block answers
500 with the state untouched.  On success the row is removed and, because the
repository migration declares the foreign key `Planning.store → Store.id`
`ON DELETE CASCADE`, the datastore removes every Planning row of that store
in the same atomic operation. -/
def deleteStore (db : DB) (id : String) : Response × DB :=
  if (db.stores.find? (fun s => s.id == id)).isSome then
    (okResponse,
      { db with
        stores := db.stores.filter (fun s => s.id != id)
        plannings := db.plannings.filter (fun p => p.store != id) })
  else
    (serverError, db)

/-! ## The planning aggregation (planningController.js)

The raw SQL query:

`SELECT sk.id AS "sku_id", sk.label AS "sku_name", sk.price, sk.cost, c.week,
c.month, p."salesUnits" FROM "Store" s LEFT JOIN "Planning" p ON s.id = p.store
LEFT JOIN "SKUs" sk ON p.sku = sk.id LEFT JOIN "Calendar" c ON p.week = c.week
WHERE p.store = $storeId ORDER BY c.week ASC`

The `WHERE p.store = storeId` filter discards every NULL-extended row of the
first LEFT JOIN, so that join acts as an inner join of Store with Planning;
the SKU and Calendar joins stay outer and can produce NULL columns. -/

/-- One row of the query result; columns from the outer joins are nullable. -/
structure JoinRow where
  sku_id : Option String
  sku_name : Option String
  price : Option ℚ
  cost : Option ℚ
  week : Option String
  month : Option String
  salesUnits : ℚ
deriving DecidableEq

/-- The SKU rows matching `p.sku = sk.id`; a LEFT JOIN keeps one NULL-extended
row when there is no match. -/
def skuMatches (db : DB) (p : Planning) : List (Option SKUrec) :=
  let l := db.skus.filter (fun sk => sk.id == p.sku)
  if l.isEmpty then [none] else l.map some

/-- The Calendar rows matching `p.week = c.week`, NULL-extended when empty. -/
def calMatches (db : DB) (p : Planning) : List (Option CalRow) :=
  let l := db.calendar.filter (fun c => c.week == p.week)
  if l.isEmpty then [none] else l.map some

/-- Assembling the projected columns of one result row. -/
def mkJoinRow (p : Planning) (sk : Option SKUrec) (c : Option CalRow) : JoinRow :=
  ⟨sk.map SKUrec.id, sk.map SKUrec.label, sk.map SKUrec.price, sk.map SKUrec.cost,
   c.map CalRow.week, c.map CalRow.month, p.salesUnits⟩

/-- Lexicographic order on character lists, the text collation used for
`ORDER BY` on the week token. -/
def charListLE : List Char → List Char → Bool
  | [], _ => true
  | _ :: _, [] => false
  | a :: as, b :: bs => if a < b then true else if b < a then false else charListLE as bs

/-- `a ≤ b` on week strings. -/
def strLe (a b : String) : Bool := charListLE a.data b.data

/-- Ordering on the nullable `c.week` column: ascending with NULLs last
(the Postgres default for `ASC`). -/
def weekLE : Option String → Option String → Bool
  | some a, some b => strLe a b
  | some _, none => true
  | none, some _ => false
  | none, none => true

/-- Stable insertion used to model `ORDER BY c.week ASC`. -/
def insertRow (x : JoinRow) : List JoinRow → List JoinRow
  | [] => [x]
  | y :: ys => if weekLE y.week x.week then y :: insertRow x ys else x :: y :: ys

/-- Sorting of the result rows by week. -/
def sortRows : List JoinRow → List JoinRow
  | [] => []
  | x :: xs => insertRow x (sortRows xs)

/-- The full query: Store joined with Planning (made inner by the WHERE
filter), LEFT JOINs with SKUs and Calendar, then `ORDER BY c.week ASC`. -/
def joinRows (db : DB) (storeId : String) : List JoinRow :=
  sortRows (db.stores.flatMap (fun s =>
    (db.plannings.filter (fun p => p.store == s.id && p.store == storeId)).flatMap (fun p =>
      (skuMatches db p).flatMap (fun sk =>
        (calMatches db p).map (fun c => mkJoinRow p sk c)))))

/-- One value of the accumulator object of the `reduce` in
`planningController.js`. -/
structure AggRecord where
  sku_id : Option String
  sku_name : Option String
  price : Option ℚ
  cost : Option ℚ
  salesData : List (Option String × ℚ)
deriving DecidableEq

/-- Property update on the accumulator object at key `k`. -/
def updateAgg (acc : List (Option String × AggRecord)) (k : Option String)
    (f : AggRecord → AggRecord) : List (Option String × AggRecord) :=
  acc.map (fun q => if q.1 = k then (q.1, f q.2) else q)

/-- One step of the `reduce`: the row is keyed by `item.sku_name` (the SKU
LABEL, not its id).  A missing key is first initialized with the row's
`sku_id`, `sku_name`, `price`, `cost` and an empty `salesData`; then
`{week, salesUnits}` is pushed onto `salesData` under that label key. -/
def addRow (acc : List (Option String × AggRecord)) (item : JoinRow) :
    List (Option String × AggRecord) :=
  let acc1 := if (acc.lookup item.sku_name).isSome then acc
    else acc ++ [(item.sku_name, ⟨item.sku_id, item.sku_name, item.price, item.cost, []⟩)]
  updateAgg acc1 item.sku_name
    (fun g => { g with salesData := g.salesData ++ [(item.week, item.salesUnits)] })

/-- The `reduce((acc, item) => …, {})` building `transformedData`, with the
accumulator object as an association list in key-insertion order. -/
def transformedData (rows : List JoinRow) : List (Option String × AggRecord) :=
  rows.foldl addRow []

/-- `getPlanningData` for one store: query then reshape. -/
def getPlanningAggregate (db : DB) (storeId : String) :
    List (Option String × AggRecord) :=
  transformedData (joinRows db storeId)

/-! ## Claim theorems for the planning aggregation and the CRUD services -/

/-- The failing input for C1: one store, two distinct SKUs (`SK1`, `SK2`) that
share the label `"Shirt"`, and one Planning fact for each. -/
def dbShirt : DB :=
  { stores := [⟨"ST001", "Store One", "City", "State"⟩]
    skus := [⟨"SK1", "Shirt", "C", "D", 5, 3⟩, ⟨"SK2", "Shirt", "C", "D", 4, 1⟩]
    plannings := [⟨"ST001", "SK1", "W01", 10⟩, ⟨"ST001", "SK2", "W02", 2⟩]
    calendar := [⟨"W01", "M01"⟩, ⟨"W02", "M01"⟩] }

/-- C1: evaluation at the failing input.  The mapping is keyed by the SKU
LABEL (`item.sku_name`), not by the SKU id: the two distinct SKUs `SK1` and
`SK2` collapse into the single key `"Shirt"`, their sales data are silently
merged into one list, and the record keeps only the first SKU id and
price/cost — contradicting the claim that each key is the SKU id and that
two distinct SKUs never share a key. -/
theorem C1_keyed_by_label_not_id :
    getPlanningAggregate dbShirt "ST001"
      = [(some "Shirt", ⟨some "SK1", some "Shirt", some 5, some 3,
          [(some "W01", 10), (some "W02", 2)]⟩)] := rfl

/-- C7: creating a store whose id is already present (a second `createStore`
call with the same id, hence an id with the `"ST"` prefix, and well-formed
remaining fields) fails with the duplicate-id validation error, the datastore
is unchanged, and the store count does not increase. -/
theorem C7_duplicate_store_rejected (db : DB) (s : Store)
    (label city state : String) (hmem : s ∈ db.stores)
    (hpre : strStartsWith s.id "ST" = true)
    (hl : label ≠ "") (hc : city ≠ "") (hst : state ≠ "") :
    (createStore db s.id label city state).1 = badRequest "Store ID already exists" ∧
    (createStore db s.id label city state).2 = db ∧
    (listStores (createStore db s.id label city state).2).length
      = (listStores db).length := by
  have hid : s.id ≠ "" := by
    intro hh
    rw [hh] at hpre
    cases hpre
  have h1 : ¬ (s.id = "" ∨ label = "" ∨ city = "" ∨ state = "") := by
    push_neg
    exact ⟨hid, hl, hc, hst⟩
  have h2 : ¬ (strStartsWith s.id "ST" = false) := by
    rw [hpre]
    intro hh
    cases hh
  have h3 : (db.stores.find? (fun x => x.id == s.id)).isSome = true := by
    rw [List.find?_isSome]
    exact ⟨s, hmem, by simp⟩
  unfold createStore
  rw [if_neg h1, if_neg h2, if_pos h3]
  exact ⟨rfl, rfl, rfl⟩

/-- Witness for C7: on a datastore already holding `ST001`, a second create
with id `ST001` answers the duplicate-id error and leaves the state alone. -/
theorem C7_duplicate_store_witness :
    (createStore ⟨[⟨"ST001", "A", "B", "C"⟩], [], [], []⟩ "ST001" "A" "B" "C").1
      = badRequest "Store ID already exists" ∧
    (createStore ⟨[⟨"ST001", "A", "B", "C"⟩], [], [], []⟩ "ST001" "A" "B" "C").2
      = ⟨[⟨"ST001", "A", "B", "C"⟩], [], [], []⟩ ∧
    (listStores (createStore ⟨[⟨"ST001", "A", "B", "C"⟩], [], [], []⟩ "ST001" "A" "B" "C").2).length
      = (listStores ⟨[⟨"ST001", "A", "B", "C"⟩], [], [], []⟩).length :=
  C7_duplicate_store_rejected ⟨[⟨"ST001", "A", "B", "C"⟩], [], [], []⟩
    ⟨"ST001", "A", "B", "C"⟩ "A" "B" "C" (List.mem_singleton.mpr rfl) rfl
    (by decide) (by decide) (by decide)

/-- C8: `createStore` with an id that does not start with `"ST"` fails with a
validation error (status 400 with an error message: the missing-field error
when some field is empty, the prefix error otherwise), the datastore is
unchanged, a subsequent `listStores` is unchanged, and no store with that id
appears in it that was not there before. -/
theorem C8_bad_prefix_rejected (db : DB) (id label city state : String)
    (hpre : strStartsWith id "ST" = false) :
    (createStore db id label city state).1.status = 400 ∧
    ((createStore db id label city state).1.error).isSome = true ∧
    (createStore db id label city state).2 = db ∧
    listStores (createStore db id label city state).2 = listStores db ∧
    ((∀ s ∈ listStores db, s.id ≠ id) →
      ∀ s ∈ listStores (createStore db id label city state).2, s.id ≠ id) := by
  unfold createStore
  by_cases h1 : (id = "" ∨ label = "" ∨ city = "" ∨ state = "")
  · rw [if_pos h1]
    exact ⟨rfl, rfl, rfl, rfl, fun h => h⟩
  · rw [if_neg h1, if_pos hpre]
    exact ⟨rfl, rfl, rfl, rfl, fun h => h⟩

/-- Witness for C8: the spec test `createStore("XX001", "A", "B", "C")` on the
empty datastore is rejected with a validation error and the store list stays
empty. -/
theorem C8_bad_prefix_witness :
    (createStore ⟨[], [], [], []⟩ "XX001" "A" "B" "C").1.status = 400 ∧
    ((createStore ⟨[], [], [], []⟩ "XX001" "A" "B" "C").1.error).isSome = true ∧
    (createStore ⟨[], [], [], []⟩ "XX001" "A" "B" "C").2 = ⟨[], [], [], []⟩ ∧
    listStores (createStore ⟨[], [], [], []⟩ "XX001" "A" "B" "C").2
      = listStores ⟨[], [], [], []⟩ ∧
    ((∀ s ∈ listStores (⟨[], [], [], []⟩ : DB), s.id ≠ "XX001") →
      ∀ s ∈ listStores (createStore ⟨[], [], [], []⟩ "XX001" "A" "B" "C").2,
        s.id ≠ "XX001") :=
  C8_bad_prefix_rejected ⟨[], [], [], []⟩ "XX001" "A" "B" "C" rfl

/-- C9: `createSKU` with `price = 0` or `cost = 0` is rejected with the
missing-required-field validation error (JS falsiness of `0`), and the
datastore is unchanged — so no SKU with zero price or zero cost is ever
persisted through this service. -/
theorem C9_zero_price_or_cost_rejected (db : DB)
    (id label skuClass department : String) (price cost : ℚ)
    (h : price = 0 ∨ cost = 0) :
    (createSKU db id label skuClass department price cost).1
      = badRequest "id, label, class, department, price and cost are required fields" ∧
    (createSKU db id label skuClass department price cost).2 = db := by
  have h1 : (id = "" ∨ label = "" ∨ skuClass = "" ∨ department = ""
      ∨ price = 0 ∨ cost = 0) := by
    rcases h with h | h
    · exact Or.inr (Or.inr (Or.inr (Or.inr (Or.inl h))))
    · exact Or.inr (Or.inr (Or.inr (Or.inr (Or.inr h))))
  unfold createSKU
  rw [if_pos h1]
  exact ⟨rfl, rfl⟩

/-- Witness for C9: a SKU with price `0` (all other fields well-formed) is
rejected with the missing-field error on the empty datastore. -/
theorem C9_zero_price_witness :
    (createSKU ⟨[], [], [], []⟩ "SK1" "Tee" "Tops" "Apparel" 0 5).1
      = badRequest "id, label, class, department, price and cost are required fields" ∧
    (createSKU ⟨[], [], [], []⟩ "SK1" "Tee" "Tops" "Apparel" 0 5).2
      = ⟨[], [], [], []⟩ :=
  C9_zero_price_or_cost_rejected ⟨[], [], [], []⟩ "SK1" "Tee" "Tops" "Apparel" 0 5
    (Or.inl rfl)

theorem joinRows_empty (db : DB) (storeId : String)
    (h : ∀ s ∈ db.stores, s.id ≠ storeId) : joinRows db storeId = [] := by
  unfold joinRows
  have hnil : db.stores.flatMap (fun s =>
      (db.plannings.filter (fun p => p.store == s.id && p.store == storeId)).flatMap (fun p =>
        (skuMatches db p).flatMap (fun sk =>
          (calMatches db p).map (fun c => mkJoinRow p sk c)))) = [] := by
    rw [List.flatMap_eq_nil_iff]
    intro s hs
    have hf : db.plannings.filter (fun p => p.store == s.id && p.store == storeId) = [] := by
      rw [List.filter_eq_nil_iff]
      intro p hp hcond
      rw [Bool.and_eq_true] at hcond
      rcases hcond with ⟨hc1, hc2⟩
      have e1 : p.store = s.id := by simpa using hc1
      have e2 : p.store = storeId := by simpa using hc2
      exact h s hs (e1 ▸ e2)
    rw [hf]
    rfl
  rw [hnil]
  rfl

/-- C10: deleting a store is not frame-preserving on Planning.  On any
datastore satisfying the declared foreign key (every Planning row's `store`
references an existing Store), `deleteStore id` leaves exactly the Planning
rows of other stores (the cascade removes those of `id`), a subsequent
`getPlanningAggregate` for `id` returns the empty mapping, and every
Planning row of another store survives unchanged. -/
theorem C10_delete_cascades_planning (db : DB) (id : String)
    (hFK : ∀ p ∈ db.plannings, ∃ s ∈ db.stores, s.id = p.store) :
    ((deleteStore db id).2).plannings = db.plannings.filter (fun p => p.store != id) ∧
    getPlanningAggregate (deleteStore db id).2 id = [] ∧
    (∀ p ∈ db.plannings, p.store ≠ id → p ∈ ((deleteStore db id).2).plannings) := by
  by_cases hex : (db.stores.find? (fun s => s.id == id)).isSome = true
  · have hdel : (deleteStore db id).2
        = { db with
            stores := db.stores.filter (fun s => s.id != id)
            plannings := db.plannings.filter (fun p => p.store != id) } := by
      unfold deleteStore
      rw [if_pos hex]
    refine ⟨by rw [hdel], ?_, ?_⟩
    · have hj : joinRows (deleteStore db id).2 id = [] := by
        refine joinRows_empty _ id ?_
        intro s hs
        rw [hdel] at hs
        rcases List.mem_filter.mp hs with ⟨_, hcond⟩
        simpa using hcond
      unfold getPlanningAggregate
      rw [hj]
      rfl
    · intro p hp hne
      rw [hdel]
      refine List.mem_filter.mpr ⟨hp, ?_⟩
      simpa using hne
  · have hdel : (deleteStore db id).2 = db := by
      unfold deleteStore
      rw [if_neg hex]
    have hnostore : ∀ s ∈ db.stores, s.id ≠ id := by
      intro s hs hh
      exact hex (List.find?_isSome.mpr ⟨s, hs, by simp [hh]⟩)
    have hnoplan : ∀ p ∈ db.plannings, p.store ≠ id := by
      intro p hp hh
      rcases hFK p hp with ⟨s, hs, hsid⟩
      exact hnostore s hs (hsid.trans hh)
    refine ⟨?_, ?_, ?_⟩
    · rw [hdel]
      have : db.plannings.filter (fun p => p.store != id) = db.plannings := by
        rw [List.filter_eq_self]
        intro p hp
        simpa using hnoplan p hp
      rw [this]
    · unfold getPlanningAggregate
      rw [hdel, joinRows_empty db id hnostore]
      rfl
    · intro p hp hne
      rw [hdel]
      exact hp

/-- A two-store datastore with Planning rows for both stores, satisfying the
foreign key, used as the C10 witness state. -/
def dbC10 : DB :=
  { stores := [⟨"ST001", "A", "B", "C"⟩, ⟨"ST002", "D", "E", "F"⟩]
    skus := [⟨"SK1", "Shirt", "C", "D", 5, 3⟩]
    plannings := [⟨"ST001", "SK1", "W01", 10⟩, ⟨"ST002", "SK1", "W01", 4⟩,
      ⟨"ST001", "SK1", "W02", 1⟩]
    calendar := [⟨"W01", "M01"⟩] }

/-- Witness for C10: deleting `ST001` from a two-store datastore removes its
two Planning rows, keeps the row of `ST002`, and a subsequent aggregate for
`ST001` is empty. -/
theorem C10_delete_cascades_witness :
    ((deleteStore dbC10 "ST001").2).plannings
      = dbC10.plannings.filter (fun p => p.store != "ST001") ∧
    getPlanningAggregate (deleteStore dbC10 "ST001").2 "ST001" = [] ∧
    (∀ p ∈ dbC10.plannings, p.store ≠ "ST001" →
      p ∈ ((deleteStore dbC10 "ST001").2).plannings) :=
  C10_delete_cascades_planning dbC10 "ST001" (by decide)

end StoreManagement
